import Mathlib

/-!
# Cortex Terraform provider: bootstrap (`internal/cortex/provider.go`)

A shallow embedding of `Provider()` and `providerConfigure` together with the
client factory closure that `providerConfigure` returns.

The Go file leans on three libraries: the Terraform plugin SDK
(`schema`, `diag`, `logging`), the Go standard library (`os`, `net/http`) and
the Cortex client library (`client`).  The parts of those libraries that the
file calls are modelled below, in sub-namespaces that carry the Go package
name.  `client.New` is the one library function whose behaviour the file does
not fix; it is a parameter of the factory.
-/

set_option autoImplicit false

namespace Cortex

/-! ## Go runtime values -/

/-- Run-time failures of the Go code: a failed type assertion `x.(string)` or a
    field access through a nil pointer. -/
inductive Panic
  | typeAssertion
  | nilDereference
  deriving DecidableEq, Repr

/-- An `interface{}` as handed out by `ResourceData.Get`: nil, or a value of one
    of the primitive schema types. -/
inductive Value
  | nil
  | str (s : String)
  | bool (b : Bool)
  | int (i : Int)
  deriving DecidableEq, Repr

/-- The type assertion `v.(string)`: it panics unless `v` holds a string. -/
def Value.assertString : Value → Except Panic String
  | .str s => .ok s
  | _ => .error .typeAssertion

/-- A Go `error` value (non-nil), identified by its message. -/
structure Error where
  msg : String
  deriving DecidableEq, Repr

/-! ## `os` -/

/-- The process environment: variable name to value, for the variables that are set. -/
abbrev Env := List (String × String)

/-- Go `os.Getenv`: the value of the variable, or the empty string when it is not set. -/
def os.Getenv (env : Env) (k : String) : String :=
  (env.lookup k).getD ""

/-! ## `schema` (Terraform plugin SDK) -/

namespace schema

/-- Go `schema.ValueType`, restricted to the primitive types. -/
inductive ValueType
  | TypeBool
  | TypeInt
  | TypeString
  deriving DecidableEq, Repr

/-- Go `ValueType.Zero`: the zero value of a schema type. -/
def ValueType.Zero : ValueType → Value
  | .TypeBool => .bool false
  | .TypeInt => .int 0
  | .TypeString => .str ""

/-- Go `schema.SchemaDefaultFunc`, reified: the only default function the provider
    uses is the one built by `schema.EnvDefaultFunc(k, dv)`. -/
inductive SchemaDefaultFunc
  | EnvDefaultFunc (k : String) (dv : Value)
  deriving DecidableEq, Repr

/-- Calling a default function.  `EnvDefaultFunc(k, dv)` returns the value of the
    environment variable `k` when that value is not the empty string, else `dv`. -/
def SchemaDefaultFunc.call (env : Env) : SchemaDefaultFunc → Value
  | .EnvDefaultFunc k dv => if os.Getenv env k ≠ "" then .str (os.Getenv env k) else dv

/-- Go `schema.Schema`: the fields that `Provider()` sets (`Type_` is the Go field
    `Type`). -/
structure Schema where
  Type_ : ValueType
  Optional : Bool := false
  Required : Bool := false
  Sensitive : Bool := false
  Default : Option Value := none
  DefaultFunc : Option SchemaDefaultFunc := none
  Description : String := ""
  deriving DecidableEq, Repr

/-- Go `Schema.DefaultValue`: the static `Default` when there is one, else the result
    of `DefaultFunc` when there is one, else nothing. -/
def Schema.DefaultValue (env : Env) (s : Schema) : Option Value :=
  match s.Default with
  | some v => some v
  | none =>
    match s.DefaultFunc with
    | some f => some (f.call env)
    | none => none

/-- Go `schema.ResourceData` for a provider block: the schema it was built against
    and the attribute values written in the configuration. -/
structure ResourceData where
  schema : List (String × Schema)
  config : List (String × Value)
  deriving Repr

/-- Go `ResourceData.GetOk`: the data for the key and whether it has been set to a
    non-zero value.  The value is the configured one when the configuration has
    the key, else the schema default, else the zero value of the type; a key
    that is not in the schema yields nil. -/
def ResourceData.GetOk (env : Env) (d : ResourceData) (key : String) : Value × Bool :=
  match d.schema.lookup key with
  | none => (.nil, false)
  | some s =>
    match (d.config.lookup key).orElse (fun _ => s.DefaultValue env) with
    | none => (s.Type_.Zero, false)
    | some v => (v, decide (v ≠ s.Type_.Zero))

/-- Go `ResourceData.Get`: the value of `GetOk`, without the flag. -/
def ResourceData.Get (env : Env) (d : ResourceData) (key : String) : Value :=
  (d.GetOk env key).1

end schema

/-! ## `diag` -/

namespace diag

/-- Go `diag.Diagnostic`. -/
structure Diagnostic where
  Severity : Nat
  Summary : String
  Detail : String
  deriving DecidableEq, Repr

/-- Go `diag.Diagnostics`: a slice of diagnostics; the nil slice is the empty list. -/
abbrev Diagnostics := List Diagnostic

end diag

/-! ## `net/http` and `logging` -/

namespace http

/-- Go `http.RoundTripper` values (non-nil): the standard library's default
    transport, a transport installed by the client library, or the SDK's logging
    transport `&transport{name, transport}` around an inner one. -/
inductive RoundTripper
  | defaultTransport
  | library (id : Nat)
  | loggingTransport (name : String) (transport : RoundTripper)
  deriving DecidableEq, Repr

/-- Go `http.DefaultTransport`. -/
def DefaultTransport : RoundTripper := .defaultTransport

/-- Go `http.Client`: the `Transport` field, nil when unset. -/
structure Client where
  Transport : Option RoundTripper
  deriving DecidableEq, Repr

/-- Go `(*http.Client).transport`: the transport a client sends its requests
    through, which is `DefaultTransport` when the field is nil. -/
def Client.transport (c : Client) : RoundTripper :=
  match c.Transport with
  | some t => t
  | none => DefaultTransport

end http

/-- Go `logging.NewTransport(name, t)`: the SDK's logging transport around `t`. -/
def logging.NewTransport (name : String) (t : http.RoundTripper) : http.RoundTripper :=
  .loggingTransport name t

/-! ## `client` (Cortex client library) -/

namespace client

/-- Go `client.Config`: the fields the provider fills in; every other field of the
    library's struct keeps its zero value. -/
structure Config where
  User : String := ""
  Key : String := ""
  Address : String := ""
  ID : String := ""
  UseLegacyRoutes : Bool := false
  deriving DecidableEq, Repr

/-- Go `client.CortexClient`: the exported `Client` field and, kept abstract, the
    state the library holds in its unexported fields. -/
structure CortexClient where
  Client : http.Client
  internals : String
  deriving DecidableEq, Repr

/-- The signature of `client.New`: a possibly nil client pointer and a possibly
    nil error. -/
abbrev NewFunc := Config → Option CortexClient × Option Error

end client

/-! ## `provider.go` -/

def EnvCortexAddress : String := "CORTEX_ADDRESS"

def EnvCortexApiKey : String := "CORTEX_API_KEY"

def EnvCortexTenantId : String := "CORTEX_TENANT_ID"

def EnvCortexUser : String := "CORTEX_API_USER"

/-- The closure type `cortexClientFunc`, defunctionalised: the five variables of
    `providerConfigure` that the function literal captures. -/
structure cortexClientFunc where
  address : String
  apiKey : String
  defaultTenantID : String
  backend : String
  user : String
  deriving DecidableEq, Repr

/-- A call the client factory makes into a library. -/
inductive LibCall
  | clientNew (cfg : client.Config)
  | loggingNewTransport (name : String) (t : http.RoundTripper)
  deriving DecidableEq, Repr

/-- What one invocation of the client factory leaves behind: the returned pair
    `(*client.CortexClient, error)` or a panic, the library calls made in order,
    and the captured variables after the call. -/
structure Invocation where
  ret : Except Panic (Option client.CortexClient × Option Error)
  calls : List LibCall
  captured : cortexClientFunc

/-- The body of the function literal in `providerConfigure`, lines 101 to 129.
    `New` stands for `client.New`. -/
def cortexClientFunc.call (New : client.NewFunc) (f : cortexClientFunc) (tenantID : String) :
    Invocation :=
  let tenantID := if tenantID = "" then f.defaultTenantID else tenantID
  let clientConfig : client.Config :=
    { Key := f.apiKey, Address := f.address, ID := tenantID, User := f.user }
  let clientConfig :=
    if f.backend = "loki" then { clientConfig with UseLegacyRoutes := true } else clientConfig
  match New clientConfig with
  | (_, some err) => { ret := .ok (none, some err), calls := [.clientNew clientConfig], captured := f }
  | (none, none) => { ret := .error .nilDereference, calls := [.clientNew clientConfig], captured := f }
  | (some c, none) =>
    let tr := match c.Client.Transport with
      | none => http.DefaultTransport
      | some t => t
    let c := { c with Client := { c.Client with Transport := some (logging.NewTransport "cortex" tr) } }
    { ret := .ok (some c, none),
      calls := [.clientNew clientConfig, .loggingNewTransport "cortex" tr],
      captured := f }

/-- The function `providerConfigure`, lines 79 to 132.  The `context.Context`
    argument is not used by the body and is left out. -/
def providerConfigure (env : Env) (d : schema.ResourceData) :
    Except Panic (cortexClientFunc × diag.Diagnostics) := do
  let address ← (d.Get env "address").assertString
  let mut apiKey := ""
  let mut defaultTenantID := ""
  let mut backend := ""
  let mut user := ""
  let (data, ok) := d.GetOk env "api_key"
  if ok then
    apiKey ← data.assertString
  let (data, ok) := d.GetOk env "tenant_id"
  if ok then
    defaultTenantID ← data.assertString
  let (data, ok) := d.GetOk env "backend"
  if ok then
    backend ← data.assertString
  let (data, ok) := d.GetOk env "user"
  if ok then
    user ← data.assertString
  let diags : diag.Diagnostics := []
  let f : cortexClientFunc :=
    { address := address, apiKey := apiKey, defaultTenantID := defaultTenantID,
      backend := backend, user := user }
  return (f, diags)

/-- Go `schema.Provider`: the option schema, the names of the registered resources
    (their definitions live in other files) and the configure function. -/
structure schema.Provider where
  Schema : List (String × schema.Schema)
  ResourcesMap : List String
  ConfigureContextFunc : Env → schema.ResourceData → Except Panic (cortexClientFunc × diag.Diagnostics)

/-- The function `Provider`, lines 35 to 77. -/
def Provider : schema.Provider :=
  { Schema :=
      [ ("address",
          { Type_ := .TypeString
            Required := true
            DefaultFunc := some (.EnvDefaultFunc EnvCortexAddress (.str ""))
            Description := "Address of the Cortex cluster" }),
        ("api_key",
          { Type_ := .TypeString
            Optional := true
            Sensitive := true
            DefaultFunc := some (.EnvDefaultFunc EnvCortexApiKey (.str ""))
            Description := "API key, used as basic auth password." }),
        ("user",
          { Type_ := .TypeString
            Optional := true
            Sensitive := true
            DefaultFunc := some (.EnvDefaultFunc EnvCortexUser (.str ""))
            Description := "used as basic auth user." }),
        ("tenant_id",
          { Type_ := .TypeString
            Optional := true
            DefaultFunc := some (.EnvDefaultFunc EnvCortexTenantId (.str ""))
            Description := "Tenant ID, passed as X-Org-ScopeID HTTP header." }),
        ("backend",
          { Type_ := .TypeString
            Optional := true
            Default := some (.str "cortex")
            Description := "Backend type to interact with: <cortex|loki>" }) ]
    ResourcesMap := ["cortex_rules", "cortex_alertmanager"]
    ConfigureContextFunc := providerConfigure }

/-- The configuration handed to `client.New` during an invocation: the argument
    of the first `client.New` call made. -/
def Invocation.clientConfig (i : Invocation) : Option client.Config :=
  i.calls.findSome? fun c =>
    match c with
    | .clientNew cfg => some cfg
    | _ => none

/-- The five options of `d` read as strings, and `f` holds those strings: `f` is
    the resolved provider configuration of `d`. -/
def Resolves (env : Env) (d : schema.ResourceData) (f : cortexClientFunc) : Prop :=
  d.Get env "address" = .str f.address ∧
  d.Get env "api_key" = .str f.apiKey ∧
  d.Get env "tenant_id" = .str f.defaultTenantID ∧
  d.Get env "backend" = .str f.backend ∧
  d.Get env "user" = .str f.user

/-- The resolution order of one option in the words of the specification: the
    configuration value when present, else the value of the environment variable
    when set, else the default. -/
def specResolve (configured environment : Option String) (dflt : String) : String :=
  match configured with
  | some v => v
  | none =>
    match environment with
    | some e => e
    | none => dflt

/-- A provider block built against the provider's own schema. -/
def providerData (config : List (String × Value)) : schema.ResourceData :=
  { schema := Provider.Schema, config := config }

/-! ## Concrete inputs -/

/-- The scenario of the specification: address and tenant set, backend unset. -/
def scenarioData : schema.ResourceData :=
  providerData [("address", .str "http://cortex:9009"), ("tenant_id", .str "team-a")]

/-- What `scenarioData` resolves to in an empty environment. -/
def scenarioFactory : cortexClientFunc :=
  { address := "http://cortex:9009", apiKey := "", defaultTenantID := "team-a",
    backend := "cortex", user := "" }

/-- A Loki provider block with credentials. -/
def lokiData : schema.ResourceData :=
  providerData
    [("address", .str "http://loki:3100"), ("api_key", .str "s3cret"), ("user", .str "ops"),
     ("backend", .str "loki")]

/-- What `lokiData` resolves to when `CORTEX_TENANT_ID` is `"env-tenant"`. -/
def lokiFactory : cortexClientFunc :=
  { address := "http://loki:3100", apiKey := "s3cret", defaultTenantID := "env-tenant",
    backend := "loki", user := "ops" }

/-- A provider block nobody validated: empty address, unknown backend. -/
def unvalidatedData : schema.ResourceData :=
  providerData [("address", .str ""), ("backend", .str "Loki")]

/-- What `unvalidatedData` resolves to in an empty environment. -/
def unvalidatedFactory : cortexClientFunc :=
  { address := "", apiKey := "", defaultTenantID := "", backend := "Loki", user := "" }

/-- A `client.New` that succeeds with a client whose transport is not set. -/
def newPlain : client.NewFunc := fun cfg =>
  (some { Client := { Transport := none }, internals := cfg.Address }, none)

/-- A `client.New` that succeeds with a client that has its own transport. -/
def newWithTransport : client.NewFunc := fun cfg =>
  (some { Client := { Transport := some (.library 7) }, internals := cfg.Address }, none)

/-- A `client.New` that fails and still hands back a half-built client. -/
def newFailing : client.NewFunc := fun cfg =>
  (some { Client := { Transport := none }, internals := cfg.Address },
   some { msg := "parse error" })

/-! ## Lemmas on the SDK lookups -/

/-- A string read through `Get` is what `GetOk` hands out, and when `GetOk`
    reports the key as not set the string is the empty one. -/
theorem GetOk_of_Get_str (env : Env) (d : schema.ResourceData) (key s : String)
    (h : d.Get env key = .str s) :
    d.GetOk env key = (.str s, true) ∨ (d.GetOk env key = (.str "", false) ∧ s = "") := by
  unfold schema.ResourceData.Get at h
  unfold schema.ResourceData.GetOk at h ⊢
  cases hs : d.schema.lookup key with
  | none => simp [hs] at h
  | some sch =>
    simp only [hs] at h ⊢
    cases hv : (d.config.lookup key).orElse (fun _ => sch.DefaultValue env) with
    | none =>
      simp only [hv] at h ⊢
      cases ht : sch.Type_ <;> simp_all [schema.ValueType.Zero]
    | some v =>
      simp only [hv] at h ⊢
      subst h
      cases ht : sch.Type_ <;> simp [schema.ValueType.Zero]
      by_cases hz : s = ""
      · right; simp [hz]
      · left; simp [hz]

/-- When the five options read as strings, `providerConfigure` returns a factory
    that captures exactly those strings, and no diagnostics. -/
theorem providerConfigure_of_strings (env : Env) (d : schema.ResourceData)
    (address apiKey tenantID backend user : String)
    (ha : d.Get env "address" = .str address)
    (hk : d.Get env "api_key" = .str apiKey)
    (ht : d.Get env "tenant_id" = .str tenantID)
    (hb : d.Get env "backend" = .str backend)
    (hu : d.Get env "user" = .str user) :
    providerConfigure env d =
      .ok ({ address := address, apiKey := apiKey, defaultTenantID := tenantID,
             backend := backend, user := user }, []) := by
  rcases GetOk_of_Get_str env d _ _ hk with gk | ⟨gk, rfl⟩ <;>
  rcases GetOk_of_Get_str env d _ _ ht with gt | ⟨gt, rfl⟩ <;>
  rcases GetOk_of_Get_str env d _ _ hb with gb | ⟨gb, rfl⟩ <;>
  rcases GetOk_of_Get_str env d _ _ hu with gu | ⟨gu, rfl⟩ <;>
  simp [providerConfigure, ha, gk, gt, gb, gu, Value.assertString, bind, Except.bind, pure,
    Except.pure]

/-- The same statement with the five reads bundled as `Resolves`. -/
theorem providerConfigure_of_resolves (env : Env) (d : schema.ResourceData)
    (f : cortexClientFunc) (h : Resolves env d f) :
    providerConfigure env d = .ok (f, []) := by
  obtain ⟨ha, hk, ht, hb, hu⟩ := h
  exact providerConfigure_of_strings env d _ _ _ _ _ ha hk ht hb hu

/-- Reading a string option whose default comes from an environment variable,
    with fallback `""`, follows the resolution order of the specification. -/
theorem Get_envDefault (env : Env) (sch : List (String × schema.Schema)) (cfg : List (String × Value))
    (key k : String) (s : schema.Schema) (configured : Option String)
    (hs : sch.lookup key = some s) (hd : s.Default = none)
    (hf : s.DefaultFunc = some (.EnvDefaultFunc k (.str "")))
    (hc : cfg.lookup key = configured.map Value.str) :
    schema.ResourceData.Get env { schema := sch, config := cfg } key =
      .str (specResolve configured (env.lookup k) "") := by
  unfold schema.ResourceData.Get schema.ResourceData.GetOk
  simp only [hs, hc]
  cases configured with
  | some v => simp [specResolve, Option.orElse]
  | none =>
    cases he : env.lookup k with
    | none =>
      simp [specResolve, Option.orElse, schema.Schema.DefaultValue, hd, hf, schema.SchemaDefaultFunc.call,
        os.Getenv, he]
    | some e =>
      by_cases hz : e = "" <;>
      simp [specResolve, Option.orElse, schema.Schema.DefaultValue, hd, hf, schema.SchemaDefaultFunc.call,
        os.Getenv, he, hz]

/-- Reading a string option that has a static default follows the resolution
    order of the specification, with no environment variable. -/
theorem Get_staticDefault (env : Env) (sch : List (String × schema.Schema)) (cfg : List (String × Value))
    (key dflt : String) (s : schema.Schema) (configured : Option String)
    (hs : sch.lookup key = some s) (hd : s.Default = some (.str dflt))
    (hc : cfg.lookup key = configured.map Value.str) :
    schema.ResourceData.Get env { schema := sch, config := cfg } key =
      .str (specResolve configured none dflt) := by
  unfold schema.ResourceData.Get schema.ResourceData.GetOk
  simp only [hs, hc]
  cases configured with
  | some v => simp [specResolve, Option.orElse]
  | none => simp [specResolve, Option.orElse, schema.Schema.DefaultValue, hd]

/-- A provider block with string-valued options resolves, against the provider's
    schema, to the values the specification's resolution order gives. -/
theorem resolves_providerData (env : Env) (cfg : List (String × Value))
    (address apiKey tenantID backend user : Option String)
    (ha : cfg.lookup "address" = address.map Value.str)
    (hk : cfg.lookup "api_key" = apiKey.map Value.str)
    (ht : cfg.lookup "tenant_id" = tenantID.map Value.str)
    (hb : cfg.lookup "backend" = backend.map Value.str)
    (hu : cfg.lookup "user" = user.map Value.str) :
    Resolves env (providerData cfg)
      { address := specResolve address (env.lookup "CORTEX_ADDRESS") "",
        apiKey := specResolve apiKey (env.lookup "CORTEX_API_KEY") "",
        defaultTenantID := specResolve tenantID (env.lookup "CORTEX_TENANT_ID") "",
        backend := specResolve backend none "cortex",
        user := specResolve user (env.lookup "CORTEX_API_USER") "" } := by
  refine ⟨?_, ?_, ?_, ?_, ?_⟩
  · exact Get_envDefault env _ cfg "address" "CORTEX_ADDRESS" _ address rfl rfl rfl ha
  · exact Get_envDefault env _ cfg "api_key" "CORTEX_API_KEY" _ apiKey rfl rfl rfl hk
  · exact Get_envDefault env _ cfg "tenant_id" "CORTEX_TENANT_ID" _ tenantID rfl rfl rfl ht
  · exact Get_staticDefault env _ cfg "backend" "cortex" _ backend rfl rfl hb
  · exact Get_envDefault env _ cfg "user" "CORTEX_API_USER" _ user rfl rfl rfl hu

/-! ## Lemmas on the factory body -/

/-- The factory body, with the configuration it builds written out and the three
    outcomes of `client.New` side by side. -/
theorem call_eq (New : client.NewFunc) (f : cortexClientFunc) (t : String) :
    ∃ cfg : client.Config,
      cfg = { Key := f.apiKey, Address := f.address,
              ID := if t = "" then f.defaultTenantID else t, User := f.user,
              UseLegacyRoutes := decide (f.backend = "loki") } ∧
      f.call New t =
        match New cfg with
        | (_, some err) =>
          { ret := .ok (none, some err), calls := [.clientNew cfg], captured := f }
        | (none, none) =>
          { ret := .error .nilDereference, calls := [.clientNew cfg], captured := f }
        | (some c, none) =>
          { ret := .ok (some { c with Client :=
                { Transport := some (logging.NewTransport "cortex" c.Client.transport) } }, none),
            calls := [.clientNew cfg, .loggingNewTransport "cortex" c.Client.transport],
            captured := f } := by
  refine ⟨_, rfl, ?_⟩
  unfold cortexClientFunc.call
  by_cases hb : f.backend = "loki"
  · simp only [hb, if_true, decide_True]
    rcases New _ with ⟨_ | c, _ | e⟩ <;> try rfl
    cases hc : c.Client.Transport <;> simp [http.Client.transport, hc]
  · simp only [hb, if_false, decide_False]
    rcases New _ with ⟨_ | c, _ | e⟩ <;> try rfl
    cases hc : c.Client.Transport <;> simp [http.Client.transport, hc]

/-- The configuration the factory hands to `client.New`. -/
theorem call_clientConfig (New : client.NewFunc) (f : cortexClientFunc) (t : String) :
    (f.call New t).clientConfig =
      some { Key := f.apiKey, Address := f.address,
             ID := if t = "" then f.defaultTenantID else t, User := f.user,
             UseLegacyRoutes := decide (f.backend = "loki") } := by
  obtain ⟨cfg, rfl, h⟩ := call_eq New f t
  rw [h]
  split <;> simp [Invocation.clientConfig, List.findSome?]

/-- The factory assigns to none of the variables it captures. -/
theorem call_captured (New : client.NewFunc) (f : cortexClientFunc) (t : String) :
    (f.call New t).captured = f := by
  obtain ⟨cfg, -, h⟩ := call_eq New f t
  rw [h]
  split <;> rfl

/-- Every option of a string-typed provider block is either absent or a string. -/
theorem lookup_stringTyped (cfg : List (String × Value))
    (hc : ∀ k v, cfg.lookup k = some v → ∃ s, v = .str s) (k : String) :
    ∃ a : Option String, cfg.lookup k = a.map Value.str := by
  cases hl : cfg.lookup k with
  | none => exact ⟨none, rfl⟩
  | some v =>
    obtain ⟨s, rfl⟩ := hc k v hl
    exact ⟨some s, rfl⟩

/-- The scenario block resolves to `scenarioFactory` in an empty environment. -/
theorem scenario_resolves : Resolves [] scenarioData scenarioFactory :=
  resolves_providerData [] _ (some "http://cortex:9009") none (some "team-a") none none
    rfl rfl rfl rfl rfl

/-- The Loki block resolves to `lokiFactory` when `CORTEX_TENANT_ID` is set. -/
theorem loki_resolves : Resolves [("CORTEX_TENANT_ID", "env-tenant")] lokiData lokiFactory :=
  resolves_providerData [("CORTEX_TENANT_ID", "env-tenant")] _ (some "http://loki:3100")
    (some "s3cret") none (some "loki") (some "ops") rfl rfl rfl rfl rfl

/-- The unvalidated block resolves to `unvalidatedFactory`. -/
theorem unvalidated_resolves : Resolves [] unvalidatedData unvalidatedFactory :=
  resolves_providerData [] _ (some "") none none (some "Loki") none rfl rfl rfl rfl rfl

/-! ## The claims -/

/-- C1: for a provider block that resolves to `f` (default tenant ID
    `f.defaultTenantID`), `providerConfigure` returns the factory `f`, and for every
    `client.New` and every per-call tenant ID `t` the configuration the factory
    passes to `client.New` has `ID = f.defaultTenantID` when `t` is empty and
    `ID = t` when `t` is not empty, whatever the default is. -/
theorem C1_tenant_scope (env : Env) (d : schema.ResourceData) (f : cortexClientFunc)
    (h : Resolves env d f) :
    providerConfigure env d = .ok (f, []) ∧
    ∀ (New : client.NewFunc) (t : String),
      ∃ cfg, (f.call New t).calls.head? = some (.clientNew cfg) ∧
        (f.call New t).clientConfig = some cfg ∧
        (t = "" → cfg.ID = f.defaultTenantID) ∧ (t ≠ "" → cfg.ID = t) := by
  refine ⟨providerConfigure_of_resolves env d f h, fun New t => ?_⟩
  refine ⟨_, ?_, call_clientConfig New f t, ?_, ?_⟩
  · obtain ⟨cfg, rfl, hcall⟩ := call_eq New f t
    rw [hcall]
    split <;> rfl
  · intro ht
    simp [ht]
  · intro ht
    simp [ht]

/-- C1 at the scenario of the specification: default tenant `"team-a"`; the
    factory called with `""` builds a configuration for `"team-a"`, called with
    `"team-b"` one for `"team-b"`. -/
theorem C1_tenant_scope_witness :
    Resolves [] scenarioData scenarioFactory ∧
    (∃ cfg, (scenarioFactory.call newPlain "").clientConfig = some cfg ∧ cfg.ID = "team-a") ∧
    (∃ cfg, (scenarioFactory.call newPlain "team-b").clientConfig = some cfg ∧
      cfg.ID = "team-b") := by
  have hc := (C1_tenant_scope [] scenarioData scenarioFactory scenario_resolves).2
  refine ⟨scenario_resolves, ?_, ?_⟩
  · obtain ⟨cfg, -, h1, h2, -⟩ := hc newPlain ""
    exact ⟨cfg, h1, h2 rfl⟩
  · obtain ⟨cfg, -, h1, -, h3⟩ := hc newPlain "team-b"
    exact ⟨cfg, h1, h3 (by decide)⟩

/-- C2: for a provider block that resolves to `f`, and every `client.New` and
    tenant ID, the configuration the factory passes to `client.New` has
    `UseLegacyRoutes = true` exactly when the resolved backend is the string
    `"loki"`; the backends `"cortex"`, `"Loki"` and `""` leave it false, and a
    provider block without a backend resolves to `"cortex"` and leaves it false. -/
theorem C2_legacy_routes_iff_loki (env : Env) (d : schema.ResourceData) (f : cortexClientFunc)
    (h : Resolves env d f) :
    providerConfigure env d = .ok (f, []) ∧
    (∀ (New : client.NewFunc) (t : String),
      ∃ cfg, (f.call New t).clientConfig = some cfg ∧
        (cfg.UseLegacyRoutes = true ↔ f.backend = "loki") ∧
        (f.backend ∈ ["cortex", "Loki", ""] → cfg.UseLegacyRoutes = false)) ∧
    (∀ config, d = providerData config → config.lookup "backend" = none →
      f.backend = "cortex" ∧
      ∀ (New : client.NewFunc) (t : String),
        ∃ cfg, (f.call New t).clientConfig = some cfg ∧ cfg.UseLegacyRoutes = false) := by
  refine ⟨providerConfigure_of_resolves env d f h, fun New t => ?_, ?_⟩
  · refine ⟨_, call_clientConfig New f t, by simp, ?_⟩
    intro hb
    simp only [List.mem_cons, List.mem_singleton, List.not_mem_nil, or_false] at hb
    rcases hb with hb | hb | hb <;> simp [hb]
  · intro config hd hb
    have hget := h.2.2.2.1
    subst hd
    have hdef := Get_staticDefault env Provider.Schema config "backend" "cortex" _ none rfl rfl
      (by simpa using hb)
    have hcortex : f.backend = "cortex" := by
      have := hget.symm.trans hdef
      simpa [specResolve, providerData] using this
    refine ⟨hcortex, fun New t => ⟨_, call_clientConfig New f t, ?_⟩⟩
    simp [hcortex]

/-- C2 at three provider blocks: backend `"loki"` turns legacy routes on; an unset
    backend and the backend `"Loki"` leave them off. -/
theorem C2_legacy_routes_iff_loki_witness :
    (Resolves [("CORTEX_TENANT_ID", "env-tenant")] lokiData lokiFactory ∧
      ∃ cfg, (lokiFactory.call newPlain "").clientConfig = some cfg ∧
        cfg.UseLegacyRoutes = true) ∧
    (Resolves [] scenarioData scenarioFactory ∧
      ∃ cfg, (scenarioFactory.call newPlain "").clientConfig = some cfg ∧
        cfg.UseLegacyRoutes = false) ∧
    (Resolves [] unvalidatedData unvalidatedFactory ∧
      ∃ cfg, (unvalidatedFactory.call newPlain "").clientConfig = some cfg ∧
        cfg.UseLegacyRoutes = false) := by
  refine ⟨⟨loki_resolves, ?_⟩, ⟨scenario_resolves, ?_⟩, ⟨unvalidated_resolves, ?_⟩⟩
  · obtain ⟨cfg, h1, h2, -⟩ :=
      (C2_legacy_routes_iff_loki _ lokiData lokiFactory loki_resolves).2.1 newPlain ""
    exact ⟨cfg, h1, h2.2 rfl⟩
  · obtain ⟨-, h2⟩ :=
      (C2_legacy_routes_iff_loki _ scenarioData scenarioFactory scenario_resolves).2.2 _ rfl rfl
    exact h2 newPlain ""
  · obtain ⟨cfg, h1, -, h3⟩ :=
      (C2_legacy_routes_iff_loki _ unvalidatedData unvalidatedFactory
        unvalidated_resolves).2.1 newPlain ""
    exact ⟨cfg, h1, h3 (by simp [unvalidatedFactory])⟩

/-- C3: for a provider block that resolves to `f`, every `client.New` and every
    tenant ID: if `client.New` returns an error `e` for the configuration the
    factory built (with or without a client next to it), the factory returns
    exactly `(nil, e)` and its only library call is that `client.New`, so no
    transport is decorated; if `client.New` returns a client and a nil error,
    the factory returns that client, its transport decorated, and a nil error. -/
theorem C3_construction_error_unchanged (env : Env) (d : schema.ResourceData)
    (f : cortexClientFunc) (h : Resolves env d f) (New : client.NewFunc) (t : String) :
    providerConfigure env d = .ok (f, []) ∧
    ∃ cfg, (f.call New t).clientConfig = some cfg ∧
      (∀ r e, New cfg = (r, some e) →
        (f.call New t).ret = .ok (none, some e) ∧ (f.call New t).calls = [.clientNew cfg]) ∧
      (∀ c, New cfg = (some c, none) →
        (f.call New t).ret =
          .ok (some { c with Client :=
              { Transport := some (logging.NewTransport "cortex" c.Client.transport) } },
            none)) := by
  refine ⟨providerConfigure_of_resolves env d f h, _, call_clientConfig New f t, ?_, ?_⟩
  · intro r e hN
    obtain ⟨cfg, rfl, hcall⟩ := call_eq New f t
    rw [hcall, hN]
    cases r <;> exact ⟨rfl, rfl⟩
  · intro c hN
    obtain ⟨cfg, rfl, hcall⟩ := call_eq New f t
    rw [hcall, hN]

/-- C3 at the scenario: a `client.New` that fails with `parse error` next to a
    half-built client makes the factory return `(nil, parse error)` after the one
    `client.New` call; a `client.New` that succeeds makes it return the client
    and a nil error. -/
theorem C3_construction_error_unchanged_witness :
    Resolves [] scenarioData scenarioFactory ∧
    (scenarioFactory.call newFailing "team-b").ret = .ok (none, some { msg := "parse error" }) ∧
    (scenarioFactory.call newFailing "team-b").calls =
      [.clientNew { Address := "http://cortex:9009", ID := "team-b" }] ∧
    (scenarioFactory.call newPlain "team-b").ret =
      .ok (some { Client := { Transport := some (.loggingTransport "cortex" .defaultTransport) },
                  internals := "http://cortex:9009" }, none) := by
  obtain ⟨-, cfg, hcfg, herr, -⟩ :=
    C3_construction_error_unchanged [] scenarioData scenarioFactory scenario_resolves
      newFailing "team-b"
  obtain ⟨-, cfg', hcfg', -, hok⟩ :=
    C3_construction_error_unchanged [] scenarioData scenarioFactory scenario_resolves
      newPlain "team-b"
  have e1 : cfg = { Address := "http://cortex:9009", ID := "team-b" } :=
    (Option.some.inj hcfg).symm
  have e2 : cfg' = { Address := "http://cortex:9009", ID := "team-b" } :=
    (Option.some.inj hcfg').symm
  subst e1
  subst e2
  obtain ⟨h1, h2⟩ := herr _ _ rfl
  exact ⟨scenario_resolves, h1, h2, hok _ rfl⟩

/-- C5: for a provider block that resolves to `f`, whenever a factory invocation
    succeeds (returns a nil error), it returns a client `c'` that is the client
    `c` returned by `client.New` with its transport replaced: the transport of
    `c'` is not nil and is the logging transport named `"cortex"` around a base,
    the base being `http.DefaultTransport` when `c` had no transport and the
    transport of `c` otherwise, which is the transport `c` itself would have sent
    requests through. -/
theorem C5_transport_decorated (env : Env) (d : schema.ResourceData) (f : cortexClientFunc)
    (h : Resolves env d f) (New : client.NewFunc) (t : String)
    (r : Option client.CortexClient) (hs : (f.call New t).ret = .ok (r, none)) :
    providerConfigure env d = .ok (f, []) ∧
    ∃ cfg c c' base,
      (f.call New t).clientConfig = some cfg ∧ New cfg = (some c, none) ∧ r = some c' ∧
      c'.Client.Transport ≠ none ∧
      c'.Client.Transport = some (.loggingTransport "cortex" base) ∧
      (c.Client.Transport = none → base = http.DefaultTransport) ∧
      (∀ tr, c.Client.Transport = some tr → base = tr) ∧
      base = c.Client.transport ∧
      c'.internals = c.internals ∧
      (f.call New t).calls = [.clientNew cfg, .loggingNewTransport "cortex" base] := by
  refine ⟨providerConfigure_of_resolves env d f h, ?_⟩
  obtain ⟨cfg, hcfg, hcall⟩ := call_eq New f t
  have hcc := call_clientConfig New f t
  rw [← hcfg] at hcc
  rw [hcall] at hs
  rcases hN : New cfg with ⟨_ | c, _ | e⟩ <;> rw [hN] at hs
  · simp at hs
  · simp at hs
  · simp only [Except.ok.injEq, Prod.mk.injEq, and_true] at hs
    have hcalls : (f.call New t).calls =
        [.clientNew cfg, .loggingNewTransport "cortex" c.Client.transport] := by
      rw [hcall, hN]
    refine ⟨cfg, c, _, c.Client.transport, hcc, hN, hs.symm, by simp, rfl, ?_, ?_, rfl, rfl,
      hcalls⟩
    · intro hn
      simp [http.Client.transport, hn]
    · intro tr htr
      simp [http.Client.transport, htr]
  · simp at hs

/-- C5 at the scenario, for a client without a transport (base: the default
    transport) and for a client with transport `library 7` (base: that one). -/
theorem C5_transport_decorated_witness :
    Resolves [] scenarioData scenarioFactory ∧
    (∃ c', (scenarioFactory.call newPlain "").ret = .ok (some c', none) ∧
      c'.Client.Transport = some (.loggingTransport "cortex" .defaultTransport)) ∧
    (∃ c', (scenarioFactory.call newWithTransport "").ret = .ok (some c', none) ∧
      c'.Client.Transport = some (.loggingTransport "cortex" (.library 7))) := by
  refine ⟨scenario_resolves, ?_, ?_⟩
  · have hs : (scenarioFactory.call newPlain "").ret =
        .ok (some { Client := { Transport := some (.loggingTransport "cortex" .defaultTransport) },
                    internals := "http://cortex:9009" }, none) := rfl
    obtain ⟨-, cfg, c, c', base, -, hN, hr, -, htr, hnone, -, -⟩ :=
      C5_transport_decorated [] scenarioData scenarioFactory scenario_resolves newPlain "" _ hs
    have hc : c.Client.Transport = none := by
      rw [← Option.some.inj (congrArg Prod.fst hN)]
    rw [hnone hc] at htr
    exact ⟨c', hr ▸ hs, htr⟩
  · have hs : (scenarioFactory.call newWithTransport "").ret =
        .ok (some { Client := { Transport := some (.loggingTransport "cortex" (.library 7)) },
                    internals := "http://cortex:9009" }, none) := rfl
    obtain ⟨-, cfg, c, c', base, -, hN, hr, -, htr, -, hsome, -⟩ :=
      C5_transport_decorated [] scenarioData scenarioFactory scenario_resolves
        newWithTransport "" _ hs
    have hc : c.Client.Transport = some (.library 7) := by
      rw [← Option.some.inj (congrArg Prod.fst hN)]
    rw [hsome _ hc] at htr
    exact ⟨c', hr ▸ hs, htr⟩

/-- C6: for a provider block that resolves to `f` (address `f.address`, API key
    `f.apiKey`, user `f.user`), the configuration the factory passes to
    `client.New` has `Address = f.address`, `Key = f.apiKey` and `User = f.user`
    for every tenant ID; a factory that differs from `f` only in default tenant
    and backend, called with any tenant ID, builds the same three fields; and in
    every environment the scenario block (address `http://cortex:9009`, tenant
    `team-a`, backend unset) called with `""` builds a configuration with that
    address, `ID = "team-a"` and `UseLegacyRoutes = false`. -/
theorem C6_address_key_user (env : Env) (d : schema.ResourceData) (f : cortexClientFunc)
    (h : Resolves env d f) :
    providerConfigure env d = .ok (f, []) ∧
    (∀ (New : client.NewFunc) (t : String),
      ∃ cfg, (f.call New t).clientConfig = some cfg ∧
        cfg.Address = f.address ∧ cfg.Key = f.apiKey ∧ cfg.User = f.user) ∧
    (∀ (New New' : client.NewFunc) (t t' tenant' backend' : String),
      ∃ cfg cfg', (f.call New t).clientConfig = some cfg ∧
        (({ f with defaultTenantID := tenant', backend := backend' } : cortexClientFunc).call
          New' t').clientConfig = some cfg' ∧
        cfg'.Address = cfg.Address ∧ cfg'.Key = cfg.Key ∧ cfg'.User = cfg.User) ∧
    (∀ (env' : Env) (New : client.NewFunc),
      ∃ g cfg, providerConfigure env' scenarioData = .ok (g, []) ∧
        (g.call New "").clientConfig = some cfg ∧
        cfg.Address = "http://cortex:9009" ∧ cfg.ID = "team-a" ∧
        cfg.UseLegacyRoutes = false) := by
  refine ⟨providerConfigure_of_resolves env d f h, fun New t => ?_, ?_, ?_⟩
  · exact ⟨_, call_clientConfig New f t, rfl, rfl, rfl⟩
  · intro New New' t t' tenant' backend'
    exact ⟨_, _, call_clientConfig New f t, call_clientConfig New' _ t', rfl, rfl, rfl⟩
  · intro env' New
    have hr := resolves_providerData env'
      [("address", .str "http://cortex:9009"), ("tenant_id", .str "team-a")]
      (some "http://cortex:9009") none (some "team-a") none none rfl rfl rfl rfl rfl
    refine ⟨_, _, providerConfigure_of_resolves env' _ _ hr, call_clientConfig New _ "", ?_, ?_, ?_⟩
    · rfl
    · rfl
    · simp [specResolve]

/-- C6 at the Loki block: the configuration built for tenant `"team-b"` carries
    the block's address, API key and user. -/
theorem C6_address_key_user_witness :
    Resolves [("CORTEX_TENANT_ID", "env-tenant")] lokiData lokiFactory ∧
    ∃ cfg, (lokiFactory.call newPlain "team-b").clientConfig = some cfg ∧
      cfg.Address = "http://loki:3100" ∧ cfg.Key = "s3cret" ∧ cfg.User = "ops" :=
  ⟨loki_resolves,
    (C6_address_key_user _ lokiData lokiFactory loki_resolves).2.1 newPlain "team-b"⟩

/-- C7: when the five options of a provider block read as strings, whatever the
    strings are, `providerConfigure` does not fail: it returns the factory that
    captures exactly those strings, with an empty diagnostics list.  Every
    provider block built against the provider's schema whose configured values
    are strings is such a block. -/
theorem C7_configure_never_fails (env : Env) (d : schema.ResourceData) (f : cortexClientFunc)
    (h : Resolves env d f) :
    providerConfigure env d = .ok (f, []) ∧
    (∀ config : List (String × Value),
      (∀ k v, config.lookup k = some v → ∃ s, v = .str s) →
      ∃ g, Resolves env (providerData config) g ∧
        providerConfigure env (providerData config) = .ok (g, [])) := by
  refine ⟨providerConfigure_of_resolves env d f h, fun config hc => ?_⟩
  obtain ⟨a, ha⟩ := lookup_stringTyped config hc "address"
  obtain ⟨k, hk⟩ := lookup_stringTyped config hc "api_key"
  obtain ⟨t, ht⟩ := lookup_stringTyped config hc "tenant_id"
  obtain ⟨b, hb⟩ := lookup_stringTyped config hc "backend"
  obtain ⟨u, hu⟩ := lookup_stringTyped config hc "user"
  have hr := resolves_providerData env config a k t b u ha hk ht hb hu
  exact ⟨_, hr, providerConfigure_of_resolves env _ _ hr⟩

/-- C7 at a block with an empty address and the unknown backend `"Loki"`: the
    factory is returned with both values unchanged and no diagnostics. -/
theorem C7_configure_never_fails_witness :
    Resolves [] unvalidatedData unvalidatedFactory ∧
    providerConfigure [] unvalidatedData =
      .ok ({ address := "", apiKey := "", defaultTenantID := "", backend := "Loki", user := "" },
        []) :=
  ⟨unvalidated_resolves,
    (C7_configure_never_fails [] unvalidatedData unvalidatedFactory unvalidated_resolves).1⟩

/-- C4: for a provider block built against the provider's schema, whose options
    are each absent or a string, and every environment, the five values that
    `providerConfigure` captures are the ones the specification's resolution
    order gives: the configured value when present, else the value of
    `CORTEX_ADDRESS`, `CORTEX_API_KEY`, `CORTEX_TENANT_ID`, `CORTEX_API_USER` when
    set, else `""`; and for the backend the configured value when present, else
    `"cortex"`, with no environment variable. -/
theorem C4_resolution_order (env : Env) (config : List (String × Value))
    (address apiKey tenantID backend user : Option String)
    (ha : config.lookup "address" = address.map Value.str)
    (hk : config.lookup "api_key" = apiKey.map Value.str)
    (ht : config.lookup "tenant_id" = tenantID.map Value.str)
    (hb : config.lookup "backend" = backend.map Value.str)
    (hu : config.lookup "user" = user.map Value.str) :
    providerConfigure env (providerData config) =
      .ok ({ address := specResolve address (env.lookup EnvCortexAddress) "",
             apiKey := specResolve apiKey (env.lookup EnvCortexApiKey) "",
             defaultTenantID := specResolve tenantID (env.lookup EnvCortexTenantId) "",
             backend := specResolve backend none "cortex",
             user := specResolve user (env.lookup EnvCortexUser) "" }, []) :=
  providerConfigure_of_resolves env _ _
    (resolves_providerData env config address apiKey tenantID backend user ha hk ht hb hu)

/-- C4 at one block and one environment that cover the combinations: address
    configured and `CORTEX_ADDRESS` set (the configuration wins), API key absent
    and `CORTEX_API_KEY` set (the environment value), tenant and user absent and
    unset (the empty string), backend absent (the default `"cortex"`). -/
theorem C4_resolution_order_witness :
    providerConfigure [("CORTEX_ADDRESS", "http://env:1"), ("CORTEX_API_KEY", "env-key")]
        (providerData [("address", .str "http://cfg:2")]) =
      .ok ({ address := "http://cfg:2", apiKey := "env-key", defaultTenantID := "",
             backend := "cortex", user := "" }, []) :=
  C4_resolution_order [("CORTEX_ADDRESS", "http://env:1"), ("CORTEX_API_KEY", "env-key")]
    [("address", .str "http://cfg:2")] (some "http://cfg:2") none none none none
    rfl rfl rfl rfl rfl

/-- C8: the schema returned by `Provider()` has the options `address`, `api_key`,
    `user`, `tenant_id` and `backend`, all of string type; `address` is the only
    required one and the others are optional; `api_key` and `user` are the only
    sensitive ones; `address`, `api_key`, `user` and `tenant_id` have no static
    default and take their default from `CORTEX_ADDRESS`, `CORTEX_API_KEY`,
    `CORTEX_API_USER` and `CORTEX_TENANT_ID` with fallback `""`; `backend` has no
    default function and the static default `"cortex"`. -/
theorem C8_schema_table :
    Provider.Schema.map Prod.fst = ["address", "api_key", "user", "tenant_id", "backend"] ∧
    (∀ e ∈ Provider.Schema, e.2.Type_ = .TypeString) ∧
    (∀ e ∈ Provider.Schema, e.2.Required = true ↔ e.1 = "address") ∧
    (∀ e ∈ Provider.Schema, e.2.Optional = true ↔ e.1 ≠ "address") ∧
    (∀ e ∈ Provider.Schema, e.2.Sensitive = true ↔ e.1 = "api_key" ∨ e.1 = "user") ∧
    (∀ e ∈ Provider.Schema, e.2.Default = none ↔ e.1 ≠ "backend") ∧
    (Provider.Schema.lookup "address").map (fun s => s.DefaultFunc) =
      some (some (.EnvDefaultFunc "CORTEX_ADDRESS" (.str ""))) ∧
    (Provider.Schema.lookup "api_key").map (fun s => s.DefaultFunc) =
      some (some (.EnvDefaultFunc "CORTEX_API_KEY" (.str ""))) ∧
    (Provider.Schema.lookup "user").map (fun s => s.DefaultFunc) =
      some (some (.EnvDefaultFunc "CORTEX_API_USER" (.str ""))) ∧
    (Provider.Schema.lookup "tenant_id").map (fun s => s.DefaultFunc) =
      some (some (.EnvDefaultFunc "CORTEX_TENANT_ID" (.str ""))) ∧
    (Provider.Schema.lookup "backend").map (fun s => (s.DefaultFunc, s.Default)) =
      some (none, some (.str "cortex")) := by
  decide

/-- C9, refuted as stated: the schema of `Provider()` does not have six options,
    and not every option has an environment-variable default. -/
theorem C9_six_env_backed_options_counterexample :
    ¬ (Provider.Schema.length = 6) ∧
    ¬ (∀ e ∈ Provider.Schema, e.2.DefaultFunc.isSome = true) ∧
    (Provider.Schema.lookup "backend").map (fun s => s.DefaultFunc) = some none := by
  decide

/-- C9, amended: the schema of `Provider()` maps five named options to
    string-typed fields; exactly four of them, `address`, `api_key`, `user` and
    `tenant_id`, have an environment-variable default, and `backend` has the
    static default `"cortex"` instead. -/
theorem C9_five_options_four_env_backed :
    Provider.Schema.length = 5 ∧
    (Provider.Schema.map Prod.fst).Nodup ∧
    (∀ e ∈ Provider.Schema, e.2.Type_ = .TypeString) ∧
    (Provider.Schema.filter (fun e => e.2.DefaultFunc.isSome)).map Prod.fst =
      ["address", "api_key", "user", "tenant_id"] ∧
    (Provider.Schema.filter (fun e => e.2.Default.isSome)).map (fun e => (e.1, e.2.Default)) =
      [("backend", some (.str "cortex"))] := by
  decide

/-- C10: for a provider block that resolves to `f`, an invocation of the factory
    leaves the captured variables as they were; so the configuration built, and
    the pair returned, for a tenant ID `t2` after an invocation with `t1` are
    those of a first invocation with `t2`; an invocation with the empty tenant ID
    after one with a non-empty `t1` still uses the default tenant; and the
    configuration built is the same whatever `client.New` does. -/
theorem C10_invocation_frame (env : Env) (d : schema.ResourceData) (f : cortexClientFunc)
    (h : Resolves env d f) :
    providerConfigure env d = .ok (f, []) ∧
    ∀ (New New' : client.NewFunc) (t1 t2 : String),
      (f.call New t1).captured = f ∧
      ((f.call New t1).captured.call New' t2).clientConfig = (f.call New' t2).clientConfig ∧
      ((f.call New t1).captured.call New' t2).ret = (f.call New' t2).ret ∧
      (f.call New t2).clientConfig = (f.call New' t2).clientConfig ∧
      (t1 ≠ "" → ∃ cfg, ((f.call New t1).captured.call New' "").clientConfig = some cfg ∧
        cfg.ID = f.defaultTenantID) := by
  refine ⟨providerConfigure_of_resolves env d f h, fun New New' t1 t2 => ?_⟩
  rw [call_captured New f t1]
  refine ⟨rfl, rfl, rfl, ?_, fun _ => ⟨_, call_clientConfig New' f "", ?_⟩⟩
  · rw [call_clientConfig, call_clientConfig]
  · simp

/-- C10 at the scenario: after an invocation for `"team-b"` the captured variables
    are unchanged and an invocation with `""` builds a configuration for the
    default tenant `"team-a"`. -/
theorem C10_invocation_frame_witness :
    Resolves [] scenarioData scenarioFactory ∧
    (scenarioFactory.call newFailing "team-b").captured = scenarioFactory ∧
    ∃ cfg, ((scenarioFactory.call newFailing "team-b").captured.call newPlain "").clientConfig =
        some cfg ∧ cfg.ID = "team-a" := by
  obtain ⟨h1, -, -, -, h5⟩ :=
    (C10_invocation_frame [] scenarioData scenarioFactory scenario_resolves).2
      newFailing newPlain "team-b" ""
  exact ⟨scenario_resolves, h1, h5 (by decide)⟩

end Cortex
